import Mathlib

/-!
Shallow embedding of the tractometry-ecosystem tutorial notebooks:
the visualization notebook (arc/cst figures, `lines_as_tubes`, `slice_volume`,
fury scene/record glue), the SLF bundle notebook (custom BundleDict +
GroupAFQ pipeline), and the RecoBundles notebook.  External library calls
(fury, dipy, pyAFQ) are embedded by the data they construct and the state
they update, exactly as the notebooks use them.
-/

namespace Tractometry

/-! ## Volumes and slicer actors (fury `actor.slicer`) -/

/-- A 3-dimensional volume, identified by its shape, as used by
`slice_volume` (which only reads `data.shape`). -/
structure Volume where
  shape0 : Nat
  shape1 : Nat
  shape2 : Nat
deriving DecidableEq, Repr

/-- The display extent of a slicer actor: the six bounds passed to
`display_extent(xmin, xmax, ymin, ymax, zmin, zmax)`. -/
structure Extent where
  xmin : Int
  xmax : Int
  ymin : Int
  ymax : Int
  zmin : Int
  zmax : Int
deriving DecidableEq, Repr

/-- A fury slicer actor: the volume it slices and its current display
extent. -/
structure SlicerActor where
  data : Volume
  extent : Extent
deriving DecidableEq, Repr

/-- `actor.slicer(data)`: a slicer actor showing, by default, the full
extent of the volume. -/
def slicer (data : Volume) : SlicerActor :=
  ⟨data, ⟨0, (data.shape0 : Int) - 1, 0, (data.shape1 : Int) - 1,
          0, (data.shape2 : Int) - 1⟩⟩

/-- `slicer_actor.display_extent(x0, x1, y0, y1, z0, z1)`: replaces the
actor's display extent. -/
def display_extent (a : SlicerActor) (x0 x1 y0 y1 z0 z1 : Int) : SlicerActor :=
  { a with extent := ⟨x0, x1, y0, y1, z0, z1⟩ }

/-- `slicer_actor.copy()`: a fresh actor with the same volume and extent. -/
def SlicerActor.copy (a : SlicerActor) : SlicerActor := a

/-- `slice_volume(data, x=None, y=None, z=None)` from the visualization
notebook: builds one slicer per selected dimension, in the order z, y, x,
each restricted to the single selected slice along its own dimension and
the full extent along the two others. -/
def slice_volume (data : Volume) (x y z : Option Int) : List SlicerActor :=
  let slicer_actors : List SlicerActor := []
  let slicer_actor_z := slicer data
  let (slicer_actor_z, slicer_actors) :=
    match z with
    | some zv =>
        let slicer_actor_z :=
          display_extent slicer_actor_z
            0 ((data.shape0 : Int) - 1)
            0 ((data.shape1 : Int) - 1)
            zv zv
        (slicer_actor_z, slicer_actors ++ [slicer_actor_z])
    | none => (slicer_actor_z, slicer_actors)
  let slicer_actors :=
    match y with
    | some yv =>
        let slicer_actor_y :=
          display_extent slicer_actor_z.copy
            0 ((data.shape0 : Int) - 1)
            yv yv
            0 ((data.shape2 : Int) - 1)
        slicer_actors ++ [slicer_actor_y]
    | none => slicer_actors
  let slicer_actors :=
    match x with
    | some xv =>
        let slicer_actor_x :=
          display_extent slicer_actor_z.copy
            xv xv
            0 ((data.shape1 : Int) - 1)
            0 ((data.shape2 : Int) - 1)
        slicer_actors ++ [slicer_actor_x]
    | none => slicer_actors
  slicer_actors

/-- Claim-side description: the slicer selecting the single z-slice `zv`. -/
def specZSlicer (data : Volume) (zv : Int) : SlicerActor :=
  ⟨data, ⟨0, (data.shape0 : Int) - 1, 0, (data.shape1 : Int) - 1, zv, zv⟩⟩

/-- Claim-side description: the slicer selecting the single y-slice `yv`. -/
def specYSlicer (data : Volume) (yv : Int) : SlicerActor :=
  ⟨data, ⟨0, (data.shape0 : Int) - 1, yv, yv, 0, (data.shape2 : Int) - 1⟩⟩

/-- Claim-side description: the slicer selecting the single x-slice `xv`. -/
def specXSlicer (data : Volume) (xv : Int) : SlicerActor :=
  ⟨data, ⟨xv, xv, 0, (data.shape1 : Int) - 1, 0, (data.shape2 : Int) - 1⟩⟩

/-! ## Line actors (fury `actor.line`) and `lines_as_tubes` -/

/-- The vtk property block of a line actor: the two fields the notebook
sets, plus any remaining vtk properties (`rest`), left abstract. -/
structure VtkProperty (W R : Type) where
  renderLinesAsTubes : Nat
  lineWidth : W
  rest : R
deriving DecidableEq, Repr

/-- A fury line actor: the underlying geometry/mapper data (abstract, as
produced by `actor.line`) and its vtk property block. -/
structure LineActor (G W R : Type) where
  geometry : G
  property : VtkProperty W R
deriving DecidableEq, Repr

/-- `line_actor.GetProperty().SetRenderLinesAsTubes(v)`. -/
def SetRenderLinesAsTubes (a : LineActor G W R) (v : Nat) : LineActor G W R :=
  { a with property := { a.property with renderLinesAsTubes := v } }

/-- `line_actor.GetProperty().SetLineWidth(w)`. -/
def SetLineWidth (a : LineActor G W R) (w : W) : LineActor G W R :=
  { a with property := { a.property with lineWidth := w } }

/-- `lines_as_tubes(sl, line_width, **kwargs)` from the visualization
notebook, parametrized by the external `actor.line` constructor `line`:
builds `actor.line(sl, **kwargs)`, then sets RenderLinesAsTubes to 1 and
LineWidth to `line_width` on its property. -/
def lines_as_tubes (line : Sl → Kw → LineActor G W R)
    (sl : Sl) (line_width : W) (kwargs : Kw) : LineActor G W R :=
  let line_actor := line sl kwargs
  let line_actor := SetRenderLinesAsTubes line_actor 1
  let line_actor := SetLineWidth line_actor line_width
  line_actor

/-! ## Filesystem and the existence-guarded save cells (C1) -/

/-- The filesystem as the list of paths that currently exist inside the
output folder `op.join(afq_home, "viz_results")`. -/
abbrev FileSystem := List String

/-- `op.exists(path)`. -/
def op_exists (fs : FileSystem) (path : String) : Bool := fs.contains path

/-- An existence-guarded save cell,
`if not op.exists(path): window.record(... out_path=path ...)` (and,
identically, the `pf.format_and_save_figure(path)` guard): returns
whether the rendering/saving call was executed, and the filesystem
afterwards.  When the file already exists nothing runs and the
filesystem — in particular the existing file — is untouched. -/
def guarded_save (fs : FileSystem) (path : String) : Bool × FileSystem :=
  if op_exists fs path then (false, fs) else (true, fs ++ [path])

/-- The five figure outputs of the visualization notebook whose save
cells are existence-guarded, in notebook order (paths relative to the
output folder). -/
def viz_outputs : List String :=
  ["arc_cst1.png", "arc_cst2.png", "arc_cst3.png", "arc_cst4.png",
   "arc_cst_fig.png"]

/-! ## Notebook glue operations (all three notebooks) -/

/-- The kind of a notebook glue operation. -/
inductive OpKind
  | fetchData        -- dataset fetcher call (fetch_hbn_preproc, fetch_hbn_afq)
  | loadFile         -- nib.load, load_trk, read_templates
  | transformCoords  -- to_rasmm, to_vox, transform_streamlines, resample
  | buildActor       -- lines_as_tubes, slice_volume, contour_from_roi, PanelFigure
  | sceneAssemble    -- window.Scene, scene.add, scene.clear, set_camera
  | renderSave       -- window.record, format_and_save_figure, group_montage
  | computeStat      -- set_number_of_points medians, afq_profile, thresholding
  | defineConfig     -- BundleDict, ImageFile, colormap choices
  | seedRandom       -- np.random.seed
  | libraryPipeline  -- GroupAFQ construction plus export of profiles
  | exportFigure     -- export of the all-bundles interactive figure
deriving DecidableEq, Repr

/-- What a persisted artifact can be. -/
inductive ArtifactKind
  | png | html | csv | trk | nifti | other
deriving DecidableEq, Repr

/-- A file persisted by a notebook operation. -/
structure Artifact where
  path : String
  kind : ArtifactKind
deriving DecidableEq, Repr

/-- One glue operation of a notebook: its kind, the library call it makes,
and the artifacts it persists to disk. -/
structure NotebookOp where
  kind : OpKind
  callee : String
  writes : List Artifact
deriving DecidableEq, Repr

/-- The glue operations of the visualization notebook, in source order. -/
def viz_notebook_ops : List NotebookOp :=
  [⟨.fetchData, "afd.fetch_hbn_preproc", []⟩,
   ⟨.fetchData, "afd.fetch_hbn_afq", []⟩,
   ⟨.loadFile, "nib.load FA", []⟩,
   ⟨.loadFile, "load_trk ARC_L", []⟩,
   ⟨.loadFile, "load_trk CST_L", []⟩,
   ⟨.loadFile, "nib.load T1w", []⟩,
   ⟨.transformCoords, "sft_arc.to_rasmm", []⟩,
   ⟨.transformCoords, "sft_cst.to_rasmm", []⟩,
   ⟨.transformCoords, "transform_streamlines arc", []⟩,
   ⟨.transformCoords, "transform_streamlines cst", []⟩,
   ⟨.buildActor, "lines_as_tubes arc", []⟩,
   ⟨.buildActor, "lines_as_tubes cst", []⟩,
   ⟨.buildActor, "slice_volume t1w", []⟩,
   ⟨.sceneAssemble, "window.Scene and scene.add", []⟩,
   ⟨.sceneAssemble, "scene.set_camera", []⟩,
   ⟨.renderSave, "window.record", [⟨"arc_cst1.png", .png⟩]⟩,
   ⟨.defineConfig, "tab20 colors", []⟩,
   ⟨.buildActor, "lines_as_tubes arc colored", []⟩,
   ⟨.buildActor, "lines_as_tubes cst colored", []⟩,
   ⟨.sceneAssemble, "scene.clear and scene.add", []⟩,
   ⟨.renderSave, "window.record", [⟨"arc_cst2.png", .png⟩]⟩,
   ⟨.computeStat, "set_number_of_points median arc", []⟩,
   ⟨.computeStat, "set_number_of_points median cst", []⟩,
   ⟨.transformCoords, "sft_arc.to_vox", []⟩,
   ⟨.transformCoords, "sft_cst.to_vox", []⟩,
   ⟨.computeStat, "afq_profile arc", []⟩,
   ⟨.computeStat, "afq_profile cst", []⟩,
   ⟨.buildActor, "lines_as_tubes core arc", []⟩,
   ⟨.buildActor, "lines_as_tubes core cst", []⟩,
   ⟨.sceneAssemble, "scene.clear", []⟩,
   ⟨.buildActor, "lines_as_tubes arc opacity", []⟩,
   ⟨.buildActor, "lines_as_tubes cst opacity", []⟩,
   ⟨.sceneAssemble, "scene.add", []⟩,
   ⟨.renderSave, "window.record", [⟨"arc_cst3.png", .png⟩]⟩,
   ⟨.loadFile, "nib.load waypoint1", []⟩,
   ⟨.loadFile, "nib.load waypoint2", []⟩,
   ⟨.transformCoords, "resample waypoint1", []⟩,
   ⟨.transformCoords, "resample waypoint2", []⟩,
   ⟨.computeStat, "threshold waypoint data", []⟩,
   ⟨.sceneAssemble, "scene.clear", []⟩,
   ⟨.buildActor, "lines_as_tubes arc", []⟩,
   ⟨.buildActor, "lines_as_tubes cst", []⟩,
   ⟨.sceneAssemble, "scene.add", []⟩,
   ⟨.buildActor, "contour_from_roi waypoint1", []⟩,
   ⟨.buildActor, "contour_from_roi waypoint2", []⟩,
   ⟨.sceneAssemble, "scene.add waypoints", []⟩,
   ⟨.renderSave, "window.record", [⟨"arc_cst4.png", .png⟩]⟩,
   ⟨.buildActor, "PanelFigure add_img", []⟩,
   ⟨.renderSave, "pf.format_and_save_figure", [⟨"arc_cst_fig.png", .png⟩]⟩]

/-- The glue operations of the SLF bundle notebook, in source order.  The
write effects of the pyAFQ pipeline calls are modelled from the spec: the
repository's only persisted outputs are PNG figures and HTML interactive
visualizations. -/
def slf_notebook_ops : List NotebookOp :=
  [⟨.seedRandom, "np.random.seed", []⟩,
   ⟨.fetchData, "afd.fetch_hbn_preproc", []⟩,
   ⟨.loadFile, "afd.read_templates", []⟩,
   ⟨.defineConfig, "abd.BundleDict L_SLF1", []⟩,
   ⟨.defineConfig, "ImageFile brain mask", []⟩,
   ⟨.libraryPipeline, "GroupAFQ and export profiles", []⟩,
   ⟨.renderSave, "my_afq.group_montage", [⟨"montage_L_SLF1.png", .png⟩]⟩,
   ⟨.exportFigure, "export all_bundles_figure",
     [⟨"all_bundles_figure.html", .html⟩]⟩]

/-- The glue operations of the RecoBundles notebook, in source order.  It
contains no dataset fetcher call: the GroupAFQ pipeline is pointed
directly at the stanford_hardi directory under afq_home. -/
def reco_notebook_ops : List NotebookOp :=
  [⟨.libraryPipeline, "GroupAFQ reco_bd and export profiles", []⟩,
   ⟨.exportFigure, "export all_bundles_figure",
     [⟨"all_bundles_figure.html", .html⟩]⟩]

/-! ## Fetch-before-analysis (C2) -/

/-- Is the operation a dataset fetcher call? -/
def is_fetch (o : NotebookOp) : Bool :=
  match o.kind with
  | .fetchData => true
  | _ => false

/-- Does the operation invoke the analysis/visualization library
machinery (bundle segmentation, streamline transformation, actor and ROI
rendering, montage generation, profile computation)? -/
def is_analysis_or_viz (o : NotebookOp) : Bool :=
  match o.kind with
  | .transformCoords => true
  | .buildActor => true
  | .sceneAssemble => true
  | .renderSave => true
  | .computeStat => true
  | .libraryPipeline => true
  | .exportFigure => true
  | _ => false

/-- Helper: every analysis/visualization operation is preceded by a fetch
(`seen` records whether a fetch has already occurred). -/
def fetch_precedes_aux (seen : Bool) : List NotebookOp → Bool
  | [] => true
  | o :: rest =>
      (!(is_analysis_or_viz o) || seen) &&
      fetch_precedes_aux (seen || is_fetch o) rest

/-- Every analysis/visualization operation of the notebook is preceded by
a dataset fetcher call. -/
def fetch_precedes_analysis (ops : List NotebookOp) : Bool :=
  fetch_precedes_aux false ops

/-! ## Pipeline stage order (C5) -/

/-- The stage number of an operation in the spec's fixed pipeline
fetch → load → transform → build actor → render/save (window.record both
renders and saves in one call); operations outside the pipeline have no
stage. -/
def stageOf : OpKind → Option Nat
  | .fetchData => some 0
  | .loadFile => some 1
  | .transformCoords => some 2
  | .buildActor => some 3
  | .renderSave => some 4
  | _ => none

/-- The sequence of pipeline stages a notebook performs, in order. -/
def stage_seq (ops : List NotebookOp) : List Nat :=
  ops.filterMap (fun o => stageOf o.kind)

/-- Is the list non-decreasing (no later stage before an earlier one)? -/
def nondecreasing : List Nat → Bool
  | [] => true
  | [_] => true
  | a :: b :: rest => (decide (a ≤ b)) && nondecreasing (b :: rest)

/-- The position of the first occurrence of `s` in the list, if any. -/
def first_idx (s : Nat) : List Nat → Option Nat
  | [] => none
  | a :: rest =>
      if a = s then some 0
      else (first_idx s rest).map (· + 1)

/-- For any two stages that both occur, the earlier stage occurs for the
first time before the later stage does. -/
def first_occurrences_ordered (l : List Nat) : Bool :=
  (List.range 5).all fun s => (List.range 5).all fun t =>
    if s < t then
      match first_idx s l, first_idx t l with
      | some i, some j => decide (i < j)
      | _, _ => true
    else true

/-! ## Persisted artifacts (C3) -/

/-- Is the artifact one of the static output kinds (PNG figure or HTML
interactive visualization)? -/
def is_static_artifact (k : ArtifactKind) : Bool :=
  match k with
  | .png => true
  | .html => true
  | _ => false

/-! ## Random seeding in the SLF notebook (C10) -/

/-- Is the operation the np.random.seed call? -/
def is_seed (o : NotebookOp) : Bool :=
  match o.kind with
  | .seedRandom => true
  | _ => false

/-- Is the operation the GroupAFQ tracking/segmentation pipeline call? -/
def is_pipeline (o : NotebookOp) : Bool :=
  match o.kind with
  | .libraryPipeline => true
  | _ => false

/-- Draw `k` values from the generator `next`, starting at a given state;
returns the values and the final state. -/
def drawMany (next : Nat → Nat × Nat) : Nat → Nat → List Nat × Nat
  | 0, st => ([], st)
  | k + 1, st =>
      let (v, st1) := next st
      let (vs, st2) := drawMany next k st1
      (v :: vs, st2)

/-- The random values drawn while executing a notebook's operations, for
an arbitrary deterministic global generator: `next` advances the RNG
state and yields a value, `seedFn` is the state the RNG is put into by
seeding.  The seed literal 1234 is the one the SLF notebook passes to
np.random.seed; the probabilistic-tracking pipeline draws `k` values. -/
def run_notebook_draws (next : Nat → Nat × Nat) (seedFn : Nat → Nat) (k : Nat) :
    Nat → List NotebookOp → List Nat
  | _, [] => []
  | st, o :: rest =>
    match o.kind with
    | .seedRandom => run_notebook_draws next seedFn k (seedFn 1234) rest
    | .libraryPipeline =>
        let (vs, st2) := drawMany next k st
        vs ++ run_notebook_draws next seedFn k st2 rest
    | _ => run_notebook_draws next seedFn k st rest

/-! ## Library-owned stateful instances of the visualization notebook (C4) -/

/-- The coordinate space a dipy StatefulTractogram is currently in. -/
inductive TractogramSpace
  | rasmm | vox | voxmm
deriving DecidableEq, Repr

/-- A dipy StatefulTractogram as the notebook observes it: the bundle it
holds and the coordinate space its streamlines are currently expressed
in. -/
structure StatefulTractogram where
  bundle : String
  space : TractogramSpace
deriving DecidableEq, Repr

/-- `load_trk(path, reference)`: the loaded tractogram starts out in
RASMM space. -/
def load_trk (bundle : String) : StatefulTractogram :=
  ⟨bundle, .rasmm⟩

/-- `sft.to_rasmm()`: puts the tractogram into RASMM space, in place. -/
def to_rasmm (s : StatefulTractogram) : StatefulTractogram :=
  { s with space := .rasmm }

/-- `sft.to_vox()`: puts the tractogram into voxel space, in place. -/
def to_vox (s : StatefulTractogram) : StatefulTractogram :=
  { s with space := .vox }

/-- A fury Scene as the notebook observes it: the actors it currently
holds and its camera setting. -/
structure Scene where
  actors : List String
  camera : Option String
deriving DecidableEq, Repr

/-- `window.Scene()`: an empty scene. -/
def Scene.new : Scene := ⟨[], none⟩

/-- `scene.add(actor)`: appends an actor, in place. -/
def Scene.add (s : Scene) (a : String) : Scene :=
  { s with actors := s.actors ++ [a] }

/-- `scene.clear()`: removes all actors, in place. -/
def Scene.clear (s : Scene) : Scene :=
  { s with actors := [] }

/-- `scene.set_camera(...)`: stores the camera settings, in place. -/
def Scene.set_camera (s : Scene) (c : String) : Scene :=
  { s with camera := some c }

/-- The library-owned stateful instances the visualization notebook holds
across cells: the two tractograms and the scene. -/
structure VizState where
  sft_arc : StatefulTractogram
  sft_cst : StatefulTractogram
  scene : Scene
deriving DecidableEq, Repr

/-- An operation of the visualization notebook, viewed by its effect on
the stateful instances: the named method calls are the library mutator
methods the notebook invokes; every other glue operation (`other`) only
constructs new values and passes them around. -/
inductive MutOp
  | toRasmmArc
  | toRasmmCst
  | toVoxArc
  | toVoxCst
  | sceneAdd (a : String)
  | sceneClear
  | setCamera (c : String)
  | other (callee : String)
deriving DecidableEq, Repr

/-- Effect of one operation on the stateful instances. -/
def applyMutOp (st : VizState) : MutOp → VizState
  | .toRasmmArc => { st with sft_arc := to_rasmm st.sft_arc }
  | .toRasmmCst => { st with sft_cst := to_rasmm st.sft_cst }
  | .toVoxArc => { st with sft_arc := to_vox st.sft_arc }
  | .toVoxCst => { st with sft_cst := to_vox st.sft_cst }
  | .sceneAdd a => { st with scene := st.scene.add a }
  | .sceneClear => { st with scene := st.scene.clear }
  | .setCamera c => { st with scene := st.scene.set_camera c }
  | .other _ => st

/-- The state right after the load cell: both bundles loaded with
load_trk, the scene not yet populated. -/
def viz_state0 : VizState :=
  ⟨load_trk "ARC_L", load_trk "CST_L", Scene.new⟩

/-- The operations of the visualization notebook that touch (or pass by)
the stateful instances, in source order. -/
def viz_mut_ops : List MutOp :=
  [.toRasmmArc,
   .toRasmmCst,
   .other "transform_streamlines arc",
   .other "transform_streamlines cst",
   .other "lines_as_tubes arc",
   .other "lines_as_tubes cst",
   .other "slice_volume t1w",
   .sceneAdd "arc_actor",
   .sceneAdd "cst_actor",
   .sceneAdd "slicers",
   .setCamera "view from camera_info",
   .other "window.record arc_cst1",
   .other "lines_as_tubes arc colored",
   .other "lines_as_tubes cst colored",
   .sceneClear,
   .sceneAdd "arc_actor",
   .sceneAdd "cst_actor",
   .sceneAdd "slicers",
   .other "window.record arc_cst2",
   .other "set_number_of_points median",
   .toVoxArc,
   .toVoxCst,
   .other "afq_profile arc",
   .other "afq_profile cst",
   .other "lines_as_tubes core actors",
   .sceneClear,
   .other "lines_as_tubes arc opacity",
   .other "lines_as_tubes cst opacity",
   .sceneAdd "arc_actor",
   .sceneAdd "cst_actor",
   .sceneAdd "slicers",
   .sceneAdd "core_arc_actor",
   .sceneAdd "core_cst_actor",
   .other "window.record arc_cst3",
   .other "nib.load waypoints",
   .other "resample waypoints",
   .sceneClear,
   .other "lines_as_tubes arc",
   .other "lines_as_tubes cst",
   .sceneAdd "arc_actor",
   .sceneAdd "cst_actor",
   .sceneAdd "slicers",
   .other "contour_from_roi waypoints",
   .sceneAdd "waypoint1_actor",
   .sceneAdd "waypoint2_actor",
   .other "window.record arc_cst4",
   .other "PanelFigure add_img",
   .other "format_and_save_figure"]

/-- The stateful instances right before the `sft.to_vox()` calls of the
core-bundle cell. -/
def state_before_to_vox : VizState :=
  (viz_mut_ops.take 20).foldl applyMutOp viz_state0

/-- The stateful instances right before the first `scene.clear()` call
(the bundle-colors cell). -/
def state_before_first_clear : VizState :=
  (viz_mut_ops.take 14).foldl applyMutOp viz_state0

/-! ## GroupAFQ call configurations (C7) -/

/-- The parallel_segmentation configuration dictionary a notebook can
pass inside segmentation_params. -/
structure ParallelSegmentationConfig where
  engine : String
deriving DecidableEq, Repr

/-- The segmentation_params argument of a GroupAFQ call. -/
structure SegmentationParams where
  parallel_segmentation : Option ParallelSegmentationConfig
deriving DecidableEq, Repr

/-- The tracking_params argument of a GroupAFQ call. -/
structure TrackingParams where
  n_seeds : Nat
  directions : String
  odf_model : String
deriving DecidableEq, Repr

/-- A GroupAFQ construction in a notebook, restricted to the arguments
relevant here. -/
structure GroupAFQCall where
  notebook : String
  tracking_params : Option TrackingParams
  segmentation_params : Option SegmentationParams
deriving DecidableEq, Repr

/-- The GroupAFQ call of the SLF bundle notebook: it passes
tracking_params and segmentation_params with
parallel_segmentation engine set to serial. -/
def slf_groupafq_call : GroupAFQCall :=
  ⟨"slf", some ⟨4, "prob", "CSD"⟩, some ⟨some ⟨"serial"⟩⟩⟩

/-- The GroupAFQ call of the RecoBundles notebook: neither
tracking_params nor segmentation_params are passed. -/
def reco_groupafq_call : GroupAFQCall :=
  ⟨"recobundles", none, none⟩

/-- All GroupAFQ calls made anywhere in the repository. -/
def groupafq_calls : List GroupAFQCall :=
  [slf_groupafq_call, reco_groupafq_call]

/-- Does the call pass a configuration value selecting or constraining
the external library's parallel execution? -/
def passes_parallelism_option (c : GroupAFQCall) : Bool :=
  match c.segmentation_params with
  | some sp => sp.parallel_segmentation.isSome
  | none => false

/-! ## Theorems -/

/-- C8: for every 3D volume and every combination of the optional
arguments x, y, z, `slice_volume data x y z` is exactly the list holding
one slicer per non-None argument, appended in the order z then y then x,
each showing only the selected slice along its own dimension and the full
extent 0 .. shape - 1 along the other two; with all three arguments None
the result is the empty list. -/
theorem slice_volume_spec (data : Volume) (x y z : Option Int) :
    slice_volume data x y z =
      (z.toList.map (specZSlicer data)) ++
      (y.toList.map (specYSlicer data)) ++
      (x.toList.map (specXSlicer data)) := by
  cases x <;> cases y <;> cases z <;> rfl

/-- C9: for every streamline input, line width and keyword arguments,
`lines_as_tubes line sl line_width kwargs` is exactly the actor produced
by `line sl kwargs` with RenderLinesAsTubes set to 1 and LineWidth set to
`line_width`, all other parts (geometry and remaining vtk properties)
unchanged. -/
theorem lines_as_tubes_spec {Sl Kw G W R : Type}
    (line : Sl → Kw → LineActor G W R) (sl : Sl) (line_width : W) (kwargs : Kw) :
    (lines_as_tubes line sl line_width kwargs).geometry = (line sl kwargs).geometry ∧
    (lines_as_tubes line sl line_width kwargs).property.rest
      = (line sl kwargs).property.rest ∧
    (lines_as_tubes line sl line_width kwargs).property.renderLinesAsTubes = 1 ∧
    (lines_as_tubes line sl line_width kwargs).property.lineWidth = line_width := by
  refine ⟨rfl, rfl, rfl, rfl⟩

/-- C1: for every one of the figure outputs arc_cst1.png .. arc_cst4.png
and arc_cst_fig.png, and any filesystem state, the rendering/saving call
is executed if and only if the output file does not already exist; when
it exists, re-rendering is skipped and the filesystem (hence the existing
file) is left unchanged. -/
theorem guarded_save_iff_missing (fs : FileSystem) (path : String)
    (_hpath : path ∈ viz_outputs) :
    ((guarded_save fs path).1 = true ↔ op_exists fs path = false) ∧
    (op_exists fs path = true → (guarded_save fs path).2 = fs) := by
  constructor
  · unfold guarded_save
    by_cases h : op_exists fs path
    · simp [h]
    · simp [h]
  · intro h
    unfold guarded_save
    simp [h]

/-- Witness for C1: with the file present, the save is skipped and the
filesystem is unchanged; the guard's decision matches non-existence. -/
theorem guarded_save_iff_missing_witness :
    ("arc_cst1.png" ∈ viz_outputs) ∧
    ((((guarded_save ["arc_cst1.png"] "arc_cst1.png").1 = true ↔
        op_exists ["arc_cst1.png"] "arc_cst1.png" = false) ∧
      (op_exists ["arc_cst1.png"] "arc_cst1.png" = true →
        (guarded_save ["arc_cst1.png"] "arc_cst1.png").2 = ["arc_cst1.png"])))
    := ⟨by decide, guarded_save_iff_missing ["arc_cst1.png"] "arc_cst1.png"
          (by decide)⟩

/-- Counterexample for C2: the claim that every notebook fetches a
dataset before invoking analysis/visualization library functions is
false on the RecoBundles notebook, whose first operation is the GroupAFQ
segmentation pipeline with no fetcher call anywhere before (or after)
it. -/
theorem fetch_before_analysis_fails_for_recobundles :
    fetch_precedes_analysis reco_notebook_ops = false := by rfl

/-- C2 amended: the visualization and SLF notebooks fetch a public
dataset before invoking any analysis/visualization library function; the
RecoBundles notebook contains no fetcher call at all and runs its
pipeline directly on a dataset directory under afq_home. -/
theorem fetch_before_analysis_amended :
    fetch_precedes_analysis viz_notebook_ops = true ∧
    fetch_precedes_analysis slf_notebook_ops = true ∧
    reco_notebook_ops.all (fun o => !(is_fetch o)) = true := by
  refine ⟨rfl, rfl, rfl⟩

/-- C3: every artifact persisted by any operation of any of the three
notebooks is a static output artifact: a PNG figure or an HTML
interactive visualization. -/
theorem notebooks_persist_only_png_and_html :
    ((viz_notebook_ops ++ slf_notebook_ops ++ reco_notebook_ops).all
      (fun o => o.writes.all (fun a => is_static_artifact a.kind))) = true := by
  rfl

/-- Counterexample for C5: the claim that no later pipeline stage is
performed before an earlier one is false on the visualization notebook:
its stage sequence is not non-decreasing (actors are rebuilt — and ROI
files loaded — after the first window.record render/save). -/
theorem stage_order_not_monotone_in_viz_notebook :
    nondecreasing (stage_seq viz_notebook_ops) = false := by rfl

/-- C5 amended: in every notebook the pipeline stages first occur in the
fixed order fetch, load, transform, build actor, render/save — for any
two stages that occur, the earlier one is first performed before the
later one — but later cells revisit earlier stages (rebuilding actors and
loading ROI files before re-rendering), so the full operation sequence is
not monotone in stage. -/
theorem stage_first_occurrences_ordered :
    first_occurrences_ordered (stage_seq viz_notebook_ops) = true ∧
    first_occurrences_ordered (stage_seq slf_notebook_ops) = true ∧
    first_occurrences_ordered (stage_seq reco_notebook_ops) = true := by
  refine ⟨rfl, rfl, rfl⟩

/-- C10: the SLF notebook seeds the global RNG with 1234 before the
tracking pipeline — a seed operation precedes the first pipeline
operation — so for any deterministic generator, any seeding function and
any number of draws the pipeline makes, two runs started from arbitrary
(distinct) initial RNG states draw identical random value sequences. -/
theorem slf_seed_makes_draws_deterministic
    (next : Nat → Nat × Nat) (seedFn : Nat → Nat) (k : Nat) (r1 r2 : Nat) :
    ((slf_notebook_ops.takeWhile (fun o => !(is_pipeline o))).any is_seed)
      = true ∧
    run_notebook_draws next seedFn k r1 slf_notebook_ops
      = run_notebook_draws next seedFn k r2 slf_notebook_ops := by
  refine ⟨rfl, rfl⟩

/-- Counterexample for C4: the claim that the notebooks never mutate any
library-owned data model instance is false: in the visualization
notebook, at the state reached right before the bundle-colors cell's
`scene.clear()`, the clear call changes the existing scene-graph
instance (and likewise `sft_arc.to_vox()` changes the existing
tractogram instance at the state reached before the core-bundle cell's
to_vox call). -/
theorem viz_notebook_mutates_library_instances :
    applyMutOp state_before_first_clear .sceneClear
      ≠ state_before_first_clear ∧
    applyMutOp state_before_to_vox .toVoxArc ≠ state_before_to_vox := by
  refine ⟨by decide, by decide⟩

/-- C4 amended: the notebooks define no data models of their own and
construct instances only via library APIs, but they do mutate the
library-owned instances in place through library mutator methods —
to_rasmm/to_vox change a tractogram's coordinate space and
clear/add/set_camera change the scene graph; every glue operation other
than these mutator calls leaves the existing instances unchanged.  In
particular to_vox moves sft_arc from RASMM to voxel space and clear
empties a scene that held the arc, cst and slicer actors. -/
theorem viz_notebook_mutates_only_via_library_methods
    (st : VizState) (callee : String) :
    applyMutOp st (.other callee) = st ∧
    state_before_to_vox.sft_arc.space = .rasmm ∧
    (applyMutOp state_before_to_vox .toVoxArc).sft_arc.space = .vox ∧
    state_before_first_clear.scene.actors
      = ["arc_actor", "cst_actor", "slicers"] ∧
    (applyMutOp state_before_first_clear .sceneClear).scene.actors = [] := by
  refine ⟨rfl, by decide, by decide, by decide, by decide⟩

/-- Counterexample for C7: the claim that no notebook passes a
configuration value selecting or constraining the external library's
parallel execution is false: the SLF notebook's GroupAFQ call passes
segmentation_params with parallel_segmentation engine set to serial. -/
theorem slf_passes_parallelism_option :
    passes_parallelism_option slf_groupafq_call = true := by rfl

/-- C7 amended: exactly one GroupAFQ call in the repository passes a
parallelism configuration value — the SLF notebook constrains the
library's parallel segmentation to the serial engine — while the
RecoBundles call passes no segmentation_params at all; the repository
itself implements no parallelism. -/
theorem parallelism_option_only_in_slf :
    (groupafq_calls.filter passes_parallelism_option).length = 1 ∧
    (slf_groupafq_call.segmentation_params.map
        (fun sp => sp.parallel_segmentation.map (fun p => p.engine)))
      = some (some "serial") ∧
    passes_parallelism_option reco_groupafq_call = false := by
  refine ⟨rfl, rfl, rfl⟩

end Tractometry
